import Mathlib

/-!
Shallow embedding of `generate_dummy_data.py` and `merge_data.py` from the
sustainable-materials-decision-intelligence repository.

Modelling conventions:
* Python floats are modelled as exact rationals (`ℚ`).
* The two pseudo-random generators (`random`, `np.random`) are modelled by an
  abstract state `RNGState` carrying two arbitrary infinite tapes: a tape of
  rational draws (for `normal` / `lognormal` / `random.random`) and a tape of
  natural-number index draws (for `random.choice` / `random.choices`).
  Quantifying over all tapes quantifies over every outcome the real generators
  could produce, so each theorem proved for all tapes holds for the program.
* `random.seed(seed)` / `np.random.seed(seed)` are modelled by a function
  `Int → PRNG` mapping the seed to the tapes and resetting both positions to 0;
  the generator discards whatever global generator state existed before the call.
* Python `int(x)` on a float truncates toward zero (`truncInt`); Python
  `round(x, k)` rounds half to even at `k` decimal digits (`pyRound`).
-/

/-- The pair of infinite tapes an (abstract) seeded pseudo-random generator
unrolls to: rational draws and index draws. -/
structure PRNG where
  tape : Nat → ℚ
  itape : Nat → Nat

/-- Global random-generator state: the tapes plus the current read positions. -/
structure RNGState where
  prng : PRNG
  npos : Nat
  ipos : Nat

/-- Draw one index (used by `random.choice` / `random.choices`). -/
def idxDraw (g : RNGState) : Nat × RNGState :=
  (g.prng.itape g.ipos, { g with ipos := g.ipos + 1 })

/-- Model of `np.random.normal(mu, sd)`: `mu + sd * z` for an arbitrary draw `z`. -/
def normalDraw (mu sd : ℚ) (g : RNGState) : ℚ × RNGState :=
  (mu + sd * g.prng.tape g.npos, { g with npos := g.npos + 1 })

/-- Model of `np.random.lognormal(mean, sigma)`: an arbitrary rational draw (its
distribution is irrelevant to every verified claim; the parameters are kept
for fidelity to the call sites). -/
def lognormalDraw (mean sigma : ℚ) (g : RNGState) : ℚ × RNGState :=
  (g.prng.tape g.npos, { g with npos := g.npos + 1 })

/-- Model of `random.random()`: an arbitrary rational draw. -/
def randomRandom (g : RNGState) : ℚ × RNGState :=
  (g.prng.tape g.npos, { g with npos := g.npos + 1 })

/-- Model of `random.choice(l)`: an arbitrary element of `l`, selected by an index draw
reduced mod `l.length`. -/
def pyChoice (l : List String) (g : RNGState) : String × RNGState :=
  let k := idxDraw g
  (l.getD (k.1 % l.length) "", k.2)

/-- Model of `random.seed(seed); np.random.seed(seed)`: the seed determines the tapes
(via the abstract seed function `sf`) and both positions start at 0. -/
def seedState (sf : Int → PRNG) (seed : Int) : RNGState :=
  ⟨sf seed, 0, 0⟩

/-- Source function `clamp` (generate_dummy_data.py lines 20-21): `max(lo, min(hi, x))`. -/
def clamp {α : Type} [LinearOrder α] (x lo hi : α) : α :=
  max lo (min hi x)

/-- Source function `choice_weighted` (lines 24-25): `random.choices(items, weights, k=1)[0]`.
Abstractly: an arbitrary element of `items` (the weights do not restrict which
elements can be drawn, and no claim depends on the distribution). -/
def choice_weighted (items : List String) (weights : List ℚ) (g : RNGState) :
    String × RNGState :=
  let k := idxDraw g
  (items.getD (k.1 % items.length) "", k.2)

/-- Python `int(x)` on a float: truncation toward zero. -/
def truncInt (x : ℚ) : Int :=
  if 0 ≤ x then ⌊x⌋ else ⌈x⌉

/-- Round a rational to the nearest integer, halves to even
(Python 3 `round` tie-breaking). -/
def rnd (x : ℚ) : Int :=
  if x - ⌊x⌋ < 1/2 then ⌊x⌋
  else if 1/2 < x - ⌊x⌋ then ⌊x⌋ + 1
  else if ⌊x⌋ % 2 = 0 then ⌊x⌋ else ⌊x⌋ + 1

/-- Python `round(x, k)`: round to `k` decimal digits, halves to even. -/
def pyRound (x : ℚ) (k : Nat) : ℚ :=
  (rnd (x * 10 ^ k) : ℚ) / 10 ^ k

/-! Fixed enumerations (lines 11-17). -/

def CATEGORIES : List String := ["Natural", "Synthetic", "Recycled", "Bio-based"]

def USE_CASES : List String := ["Fabric", "Upper", "Midsole", "Outsole", "Packaging", "Trim"]

def REGIONS : List String :=
  ["Vietnam", "China", "India", "Turkey", "USA", "Mexico", "Brazil", "Indonesia", "Thailand", "Italy"]

def TIER_LEVELS : List String := ["Tier 1", "Tier 2", "Tier 3"]

def RISK_LEVELS : List String := ["Low", "Medium", "High"]

def CONF_LEVELS : List String := ["Low", "Medium", "High"]

/-- Source dict `region_risk_map` (lines 128-131). The default branch is unreachable: the
region is always drawn from `REGIONS`, and every member of `REGIONS` is listed. -/
def region_risk_map (r : String) : ℚ :=
  if r = "USA" then 20 else if r = "Italy" then 25 else if r = "Mexico" then 35
  else if r = "Turkey" then 45 else if r = "Brazil" then 40
  else if r = "Vietnam" then 50 else if r = "Thailand" then 45
  else if r = "China" then 55 else if r = "India" then 55
  else if r = "Indonesia" then 60 else 0

/-- Source function `make_material_name` (lines 28-44). The dictionary lookup on `category` is
total here via the trailing else branch for "Bio-based"; `category` is always
drawn from `CATEGORIES`. -/
def make_material_name (category : String) (g : RNGState) : String × RNGState :=
  let pool : List String :=
    if category = "Natural" then ["Cotton", "Wool", "Leather", "Linen", "Hemp"]
    else if category = "Synthetic" then ["Polyester", "Nylon", "Elastane", "EVA", "TPU"]
    else if category = "Recycled" then
      ["Recycled Polyester", "Recycled Nylon", "Recycled TPU", "rPET"]
    else ["Bio-EVA", "PLA", "Bio-TPU", "Castor-based Nylon"]
  let b := pyChoice pool g
  let q := pyChoice ["", "", "", " - Lightweight", " - Premium", " - High Tenacity", " - Low Dye"] b.2
  (b.1 ++ q.1, q.2)

/-! Decimal rendering of the loop index: `f"M{i:03d}"` (line 60). -/

/-- Little-endian base-10 digits, with explicit fuel for structural recursion. -/
def digitsF : Nat → Nat → List Nat
  | _, 0 => []
  | 0, _ + 1 => []
  | f + 1, n + 1 => (n + 1) % 10 :: digitsF f ((n + 1) / 10)

/-- Little-endian base-10 digits of `n` (empty for 0). -/
def digits (n : Nat) : List Nat := digitsF n n

/-- A decimal digit as a character. -/
def digitChar (d : Nat) : Char :=
  if d = 0 then '0' else if d = 1 then '1' else if d = 2 then '2'
  else if d = 3 then '3' else if d = 4 then '4' else if d = 5 then '5'
  else if d = 6 then '6' else if d = 7 then '7' else if d = 8 then '8'
  else if d = 9 then '9' else '*'

/-- A character read back as a decimal digit (0 for anything else). -/
def charDigit (c : Char) : Nat :=
  if c = '0' then 0 else if c = '1' then 1 else if c = '2' then 2
  else if c = '3' then 3 else if c = '4' then 4 else if c = '5' then 5
  else if c = '6' then 6 else if c = '7' then 7 else if c = '8' then 8
  else if c = '9' then 9 else 0

/-- Decimal (big-endian) characters of `n`:  Python `str(n)`. -/
def natChars (n : Nat) : List Char :=
  if n = 0 then ['0'] else ((digits n).map digitChar).reverse

/-- Left-pad with '0' to width `w`:  Python `str(n).zfill(w)` / `{:0wd}`. -/
def zfill (w : Nat) (s : List Char) : List Char :=
  List.replicate (w - s.length) '0' ++ s

/-- Rendering of `f"M{i:03d}"` (line 60): the loop index is always ≥ 1 in the source, so
only nonnegative rendering is modelled. -/
def materialId (i : Nat) : String :=
  String.mk ('M' :: zfill 3 (natChars i))

/-- Value of a big-endian list of decimal digit characters. -/
def decodeChars : List Char → Nat
  | [] => 0
  | c :: cs => charDigit c * 10 ^ cs.length + decodeChars cs

/-! The per-row record: every local variable of the loop body (lines 59-166)
that some claim needs, kept at full precision (pre-rounding). -/

/-- All values computed for one loop iteration of `gen_rows` (lines 59-166).
`recycled_draw` is the raw Normal draw of step "Recycled content" and
`disr_noise` the raw `np.random.normal(0, 0.05)` disruption noise; the other
numeric fields are the clamped (not yet rounded) local variables. -/
structure RowData where
  material_id : String
  material_name : String
  category : String
  use_case : String
  primary_region : String
  tier_level : String
  recycled_content : Int
  recycled_draw : ℚ
  carbon : ℚ
  water : ℚ
  energy : ℚ
  land : ℚ
  recyclability : ℚ
  microplastic_risk : String
  supplier_conc : ℚ
  country_risk : ℚ
  climate_exposure : ℚ
  price_vol : ℚ
  lead_time : Int
  disr_noise : ℚ
  disruption : ℚ
  pfas_risk : String
  forced_labor_risk : String
  disclosure_level : Int
  data_conf : String
  audit_freq : Int
  certification : String

/-- One iteration of the generation loop (lines 59-166), for loop index `i`. -/
def genRow (i : Nat) (g0 : RNGState) : RowData × RNGState :=
  -- line 61: category = choice_weighted(CATEGORIES, cat_weights)
  let c := choice_weighted CATEGORIES [3/10, 3/10, 1/4, 3/20] g0
  let category := c.1
  -- lines 62-63
  let u := pyChoice USE_CASES c.2
  let pr := pyChoice REGIONS u.2
  -- line 64
  let t := choice_weighted TIER_LEVELS [11/20, 3/10, 3/20] pr.2
  -- lines 66-72: recycled content (value, raw draw, state)
  let rc :=
    if category = "Recycled" then
      let d := normalDraw 70 20 t.2
      (clamp (truncInt d.1) 20 100, d.1, d.2)
    else if category = "Bio-based" then
      let d := normalDraw 10 10 t.2
      (clamp (truncInt d.1) 0 40, d.1, d.2)
    else
      let d := normalDraw 2 4 t.2
      (clamp (truncInt d.1) 0 15, d.1, d.2)
  let recycled_content := rc.1
  -- line 74
  let nm := make_material_name category rc.2.2
  -- lines 78-105: (carbon, water, energy, land, microplastics, recyclability, state)
  let env :=
    if category = "Natural" then
      let cb := normalDraw 5 (6/5) nm.2
      let wt := lognormalDraw 9 (7/20) cb.2
      let en := normalDraw 60 15 wt.2
      let ld := normalDraw 8 2 en.2
      let ry := normalDraw 45 15 ld.2
      (cb.1, wt.1, en.1, ld.1, "Low", ry.1, ry.2)
    else if category = "Synthetic" then
      let cb := normalDraw 6 (3/2) nm.2
      let wt := lognormalDraw 4 (7/20) cb.2
      let en := normalDraw 85 18 wt.2
      let ld := normalDraw (5/2) 1 en.2
      let mp := choice_weighted RISK_LEVELS [3/20, 11/20, 3/10] ld.2
      let ry := normalDraw 55 15 mp.2
      (cb.1, wt.1, en.1, ld.1, mp.1, ry.1, ry.2)
    else if category = "Recycled" then
      let cb := normalDraw 3 (9/10) nm.2
      let wt := lognormalDraw (7/2) (3/10) cb.2
      let en := normalDraw 70 15 wt.2
      let ld := normalDraw (9/5) (4/5) en.2
      let mp := choice_weighted RISK_LEVELS [1/10, 11/20, 7/20] ld.2
      let ry := normalDraw 70 12 mp.2
      (cb.1, wt.1, en.1, ld.1, mp.1, ry.1, ry.2)
    else
      let cb := normalDraw (19/5) 1 nm.2
      let wt := lognormalDraw (47/10) (7/20) cb.2
      let en := normalDraw 75 15 wt.2
      let ld := normalDraw (9/2) (3/2) en.2
      let mp := choice_weighted RISK_LEVELS [1/4, 11/20, 1/5] ld.2
      let ry := normalDraw 60 15 mp.2
      (cb.1, wt.1, en.1, ld.1, mp.1, ry.1, ry.2)
  -- lines 108-109: tie impacts lightly to recycled content
  let carbon1 := env.1 * (1 - (recycled_content : ℚ) / 400)
  let water1 := env.2.1 * (1 - (recycled_content : ℚ) / 800)
  -- lines 111-115
  let carbon := clamp carbon1 (4/5) 12
  let water := clamp water1 10 30000
  let energy := clamp env.2.2.1 20 140
  let land := clamp env.2.2.2.1 (1/5) 15
  let recyclability := clamp env.2.2.2.2.2.1 0 100
  let microplastics := env.2.2.2.2.1
  -- lines 119-125
  let base_conc : ℚ :=
    if category = "Natural" then 9/20
    else if category = "Synthetic" then 11/20
    else if category = "Recycled" then 3/5
    else 7/10
  let sc := normalDraw base_conc (3/25) env.2.2.2.2.2.2
  let supplier_conc := clamp sc.1 (1/20) (19/20)
  -- lines 128-132
  let cr := normalDraw (region_risk_map pr.1) 10 sc.2
  let country_risk := clamp cr.1 0 100
  -- lines 134-135
  let ce := normalDraw (if category = "Natural" then 50 else 40) 15 cr.2
  let climate_exposure := clamp ce.1 0 100
  let pv := normalDraw (if category = "Natural" ∨ category = "Bio-based" then 65 else 55) 15 ce.2
  let price_vol := clamp pv.1 0 100
  -- line 137
  let lt := normalDraw (if t.1 = "Tier 3" then 45 else 30) 10 pv.2
  let lead_time := truncInt (clamp lt.1 7 120)
  -- lines 140-141
  let disruption0 :=
    (45/100) * supplier_conc + (35/100) * (country_risk / 100) + (20/100) * ((lead_time : ℚ) / 120)
  let dn := normalDraw 0 (1/20) lt.2
  let disruption := clamp (disruption0 + dn.1) (1/100) (19/20)
  -- lines 145-148
  let pf :=
    if category = "Synthetic" ∨ category = "Recycled" then
      choice_weighted RISK_LEVELS [1/4, 11/20, 1/5] dn.2
    else
      choice_weighted RISK_LEVELS [13/20, 3/10, 1/20] dn.2
  -- lines 150-153
  let fl0 := choice_weighted RISK_LEVELS [11/20, 3/10, 3/20] pf.2
  let fl :=
    if 60 < country_risk then choice_weighted RISK_LEVELS [7/20, 2/5, 1/4] fl0.2
    else fl0
  -- line 155
  let dl := normalDraw 3 1 fl.2
  let disclosure_level := truncInt (clamp dl.1 1 5)
  -- lines 158-163
  let dc :=
    if category = "Natural" then choice_weighted CONF_LEVELS [1/10, 7/20, 11/20] dl.2
    else if category = "Recycled" then choice_weighted CONF_LEVELS [9/20, 2/5, 3/20] dl.2
    else choice_weighted CONF_LEVELS [1/4, 1/2, 1/4] dl.2
  -- line 165
  let af := normalDraw (if dc.1 = "Low" then 3 else 2) (3/2) dc.2
  let audit_freq := truncInt (clamp af.1 0 12)
  -- line 166 (the `and` short-circuits: random.random() is only consumed
  -- when the category is Natural or Bio-based)
  let cert :=
    if category = "Natural" ∨ category = "Bio-based" then
      let r := randomRandom af.2
      (if r.1 < 11/20 then "Y" else "N", r.2)
    else ("N", af.2)
  ({ material_id := materialId i
     material_name := nm.1
     category := category
     use_case := u.1
     primary_region := pr.1
     tier_level := t.1
     recycled_content := recycled_content
     recycled_draw := rc.2.1
     carbon := carbon
     water := water
     energy := energy
     land := land
     recyclability := recyclability
     microplastic_risk := microplastics
     supplier_conc := supplier_conc
     country_risk := country_risk
     climate_exposure := climate_exposure
     price_vol := price_vol
     lead_time := lead_time
     disr_noise := dn.1
     disruption := disruption
     pfas_risk := pf.1
     forced_labor_risk := fl.1
     disclosure_level := disclosure_level
     data_conf := dc.1
     audit_freq := audit_freq
     certification := cert.1 }, cert.2)

/-! Emitted table rows (the dict literals appended at lines 168-207) and the
five returned tables (lines 209-219). -/

/-- A row of `materials_master` (lines 168-177). -/
structure MaterialRow where
  material_id : String
  material_name : String
  category : String
  use_case : String
  primary_region : String
  tier_level : String
  recycled_content_pct : Int
  notes : String

/-- A row of `environmental_impact` (lines 179-187). -/
structure ImpactRow where
  material_id : String
  carbon_kgco2e_per_kg : ℚ
  water_l_per_kg : ℚ
  energy_mj_per_kg : ℚ
  land_use_m2_per_kg : ℚ
  recyclability_score : ℚ
  microplastic_risk : String

/-- A row of `supply_chain_risk` (lines 189-197). -/
structure SupplyRow where
  material_id : String
  supplier_concentration_index : ℚ
  country_risk_score : ℚ
  climate_exposure_score : ℚ
  price_volatility_index : ℚ
  lead_time_days : Int
  disruption_probability : ℚ

/-- A row of `regulatory_confidence` (lines 199-207). -/
structure RegRow where
  material_id : String
  pfas_regulatory_risk : String
  forced_labor_risk : String
  disclosure_requirement_level : Int
  data_confidence : String
  audit_frequency_per_year : Int
  certification_available : String

/-- A row of `scenarios` (lines 214-218). -/
structure ScenarioRow where
  scenario : String
  microplastics_penalty_factor : ℚ
  pfas_penalty_factor : ℚ
  country_risk_multiplier : ℚ

/-- The five tables returned by `gen_rows` (lines 209-219). -/
structure Tables where
  materials_master : List MaterialRow
  environmental_impact : List ImpactRow
  supply_chain_risk : List SupplyRow
  regulatory_confidence : List RegRow
  scenarios : List ScenarioRow

/-- The `materials.append({...})` dict (lines 168-177). -/
def materialRowOf (r : RowData) : MaterialRow :=
  { material_id := r.material_id
    material_name := r.material_name
    category := r.category
    use_case := r.use_case
    primary_region := r.primary_region
    tier_level := r.tier_level
    recycled_content_pct := r.recycled_content
    notes := "" }

/-- The `impacts.append({...})` dict (lines 179-187), with its roundings. -/
def impactRowOf (r : RowData) : ImpactRow :=
  { material_id := r.material_id
    carbon_kgco2e_per_kg := pyRound r.carbon 3
    water_l_per_kg := pyRound r.water 1
    energy_mj_per_kg := pyRound r.energy 1
    land_use_m2_per_kg := pyRound r.land 2
    recyclability_score := pyRound r.recyclability 1
    microplastic_risk := r.microplastic_risk }

/-- The `supply.append({...})` dict (lines 189-197), with its roundings. -/
def supplyRowOf (r : RowData) : SupplyRow :=
  { material_id := r.material_id
    supplier_concentration_index := pyRound r.supplier_conc 3
    country_risk_score := pyRound r.country_risk 1
    climate_exposure_score := pyRound r.climate_exposure 1
    price_volatility_index := pyRound r.price_vol 1
    lead_time_days := r.lead_time
    disruption_probability := pyRound r.disruption 3 }

/-- The `reg.append({...})` dict (lines 199-207). -/
def regRowOf (r : RowData) : RegRow :=
  { material_id := r.material_id
    pfas_regulatory_risk := r.pfas_risk
    forced_labor_risk := r.forced_labor_risk
    disclosure_requirement_level := r.disclosure_level
    data_confidence := r.data_conf
    audit_frequency_per_year := r.audit_freq
    certification_available := r.certification }

/-- The loop traversal `for i in range(1, n + 1)` (line 59): empty when
`n ≤ 0`, otherwise the indices `1 .. n`. -/
def loopIndices (n : Int) : List Nat :=
  (List.range n.toNat).map (· + 1)

/-- Run `genRow` over a list of loop indices, threading the generator state. -/
def genRowsAux : List Nat → RNGState → List RowData × RNGState
  | [], g => ([], g)
  | i :: is, g =>
    let p := genRow i g
    let q := genRowsAux is p.2
    (p.1 :: q.1, q.2)

/-- The list of per-row values produced by `gen_rows(n, seed)`: the state is
seeded from `seed` (lines 48-49) and the loop (lines 59-207) is run. -/
def genTrace (sf : Int → PRNG) (n seed : Int) : List RowData :=
  (genRowsAux (loopIndices n) (seedState sf seed)).1

/-- The fixed `scenarios` table (lines 214-218). -/
def scenariosTable : List ScenarioRow :=
  [⟨"Baseline", 1, 1, 1⟩,
   ⟨"Microplastics_Ban_On", 5/4, 1, 1⟩,
   ⟨"Geo_Tension_Spike", 1, 1, 23/20⟩]

/-- Source function `gen_rows(n, seed)` (lines 47-219).  `sf` is the abstract seeding function
of the process-wide generators and `g0` the global generator state as it was
before the call; lines 48-49 (`random.seed(seed)`, `np.random.seed(seed)`)
overwrite that state, so `g0` is discarded. -/
def gen_rows (sf : Int → PRNG) (n : Int) (seed : Int) (g0 : RNGState) : Tables :=
  let rows := genTrace sf n seed
  { materials_master := rows.map materialRowOf
    environmental_impact := rows.map impactRowOf
    supply_chain_risk := rows.map supplyRowOf
    regulatory_confidence := rows.map regRowOf
    scenarios := scenariosTable }

/-! The merger (merge_data.py).  `pandas.merge(..., on="material_id")` with the
default `how="inner"`: for each left row, in order, the matching right rows in
order; non-matching rows of either side are dropped, and no error is raised. -/

/-- One inner join on a shared string key (a `DataFrame.merge` call). -/
def merge {α β : Type} (xs : List α) (ys : List β) (k1 : α → String) (k2 : β → String) :
    List (α × β) :=
  xs.flatMap fun x => (ys.filter fun y => k2 y == k1 x).map fun y => (x, y)

/-- The combined frame `df` (merge_data.py lines 8-13): three successive inner
joins of the four tables on `material_id`. -/
def df (materials : List MaterialRow) (impact : List ImpactRow)
    (risk : List SupplyRow) (reg : List RegRow) :
    List (((MaterialRow × ImpactRow) × SupplyRow) × RegRow) :=
  merge (merge (merge materials impact (·.material_id) (·.material_id))
      risk (fun p => p.1.material_id) (·.material_id))
    reg (fun p => p.1.1.material_id) (·.material_id)

/-! Basic lemmas about the Python numeric primitives. -/

theorem clamp_mem {α : Type} [LinearOrder α] (x lo hi : α) (h : lo ≤ hi) :
    lo ≤ clamp x lo hi ∧ clamp x lo hi ≤ hi := by
  constructor
  · exact le_max_left _ _
  · exact max_le h (min_le_left _ _)

theorem truncInt_bounds (a b : Int) (x : ℚ) (ha : 0 ≤ a)
    (h1 : (a : ℚ) ≤ x) (h2 : x ≤ (b : ℚ)) : a ≤ truncInt x ∧ truncInt x ≤ b := by
  have hx : (0 : ℚ) ≤ x := le_trans (by exact_mod_cast ha) h1
  rw [truncInt, if_pos hx]
  constructor
  · exact Int.le_floor.mpr h1
  · have : (⌊x⌋ : ℚ) ≤ (b : ℚ) := le_trans (Int.floor_le x) h2
    exact_mod_cast this

theorem le_rnd (a : Int) (x : ℚ) (h : (a : ℚ) ≤ x) : a ≤ rnd x := by
  have hf : a ≤ ⌊x⌋ := Int.le_floor.mpr h
  rw [rnd]
  split_ifs <;> omega

theorem rnd_le (b : Int) (x : ℚ) (h : x ≤ (b : ℚ)) : rnd x ≤ b := by
  have hfb : ⌊x⌋ ≤ b := by
    have : (⌊x⌋ : ℚ) ≤ (b : ℚ) := le_trans (Int.floor_le x) h
    exact_mod_cast this
  rw [rnd]
  split_ifs with h1 h2 h3
  · exact hfb
  · -- the fractional part exceeds 1/2, so x is not an integer and ⌊x⌋ < b
    have hlt : (⌊x⌋ : ℚ) < x := by linarith
    have : (⌊x⌋ : ℚ) < (b : ℚ) := lt_of_lt_of_le hlt h
    have : ⌊x⌋ < b := by exact_mod_cast this
    omega
  · exact hfb
  · have hlt : (⌊x⌋ : ℚ) < x := by linarith
    have : (⌊x⌋ : ℚ) < (b : ℚ) := lt_of_lt_of_le hlt h
    have : ⌊x⌋ < b := by exact_mod_cast this
    omega

theorem pyRound_bounds (k : Nat) (a b : Int) (x : ℚ)
    (h1 : (a : ℚ) ≤ x * 10 ^ k) (h2 : x * 10 ^ k ≤ (b : ℚ)) :
    (a : ℚ) / 10 ^ k ≤ pyRound x k ∧ pyRound x k ≤ (b : ℚ) / 10 ^ k := by
  have hpow : (0 : ℚ) < 10 ^ k := by positivity
  have hl : a ≤ rnd (x * 10 ^ k) := le_rnd a _ h1
  have hr : rnd (x * 10 ^ k) ≤ b := rnd_le b _ h2
  have hl' : (a : ℚ) ≤ (rnd (x * 10 ^ k) : ℚ) := by exact_mod_cast hl
  have hr' : ((rnd (x * 10 ^ k) : ℚ)) ≤ (b : ℚ) := by exact_mod_cast hr
  rw [pyRound]
  constructor <;> gcongr

/-! Injectivity of `materialId`: a decode function recovers the index from the
rendered, zero-padded string. -/

theorem digitsF_congr : ∀ (f f' n : Nat), n ≤ f → n ≤ f' → digitsF f n = digitsF f' n := by
  intro f
  induction f with
  | zero =>
    intro f' n hf _
    interval_cases n
    cases f' <;> rfl
  | succ f ih =>
    intro f' n hf hf'
    match n, f' with
    | 0, f' => cases f' <;> rfl
    | m + 1, 0 => omega
    | m + 1, f'' + 1 =>
      have hdiv : (m + 1) / 10 ≤ m := by
        have := Nat.div_lt_self (Nat.succ_pos m) (by omega : 1 < 10)
        omega
      simp only [digitsF]
      rw [ih f'' ((m + 1) / 10) (by omega) (by omega)]

theorem digits_pos (n : Nat) (h : 0 < n) : digits n = n % 10 :: digits (n / 10) := by
  match n, h with
  | m + 1, _ =>
    show digitsF (m + 1) (m + 1) = _
    simp only [digitsF]
    have hdiv : (m + 1) / 10 ≤ m := by
      have := Nat.div_lt_self (Nat.succ_pos m) (by omega : 1 < 10)
      omega
    rw [digitsF_congr m ((m + 1) / 10) ((m + 1) / 10) hdiv (le_refl _)]
    rfl

theorem charDigit_digitChar (d : Nat) (h : d < 10) : charDigit (digitChar d) = d := by
  interval_cases d <;> rfl

theorem decodeChars_append_digit (xs : List Char) (c : Char) :
    decodeChars (xs ++ [c]) = 10 * decodeChars xs + charDigit c := by
  induction xs with
  | nil => simp [decodeChars]
  | cons x xs ih =>
    simp only [List.cons_append, decodeChars]
    simp only [List.append_eq, List.length_append, List.length_cons, List.length_nil]
    rw [ih]
    ring

theorem decodeChars_rev_digits (n : Nat) :
    decodeChars (((digits n).map digitChar).reverse) = n := by
  induction n using Nat.strong_induction_on with
  | _ n ih =>
    rcases Nat.eq_zero_or_pos n with h0 | hpos
    · subst h0; rfl
    · rw [digits_pos n hpos]
      simp only [List.map_cons, List.reverse_cons]
      rw [decodeChars_append_digit]
      rw [ih (n / 10) (Nat.div_lt_self hpos (by omega))]
      rw [charDigit_digitChar (n % 10) (Nat.mod_lt n (by omega))]
      omega

theorem decodeChars_replicate_zero (k : Nat) (v : List Char) :
    decodeChars (List.replicate k '0' ++ v) = decodeChars v := by
  induction k with
  | zero => rfl
  | succ k ih =>
    simp only [List.replicate_succ, List.cons_append, decodeChars, List.append_eq, ih]
    simp [charDigit]

theorem decodeChars_natChars (n : Nat) : decodeChars (natChars n) = n := by
  rw [natChars]
  split_ifs with h
  · subst h; rfl
  · exact decodeChars_rev_digits n

theorem decodeChars_zfill (w n : Nat) : decodeChars (zfill w (natChars n)) = n := by
  rw [zfill, decodeChars_replicate_zero, decodeChars_natChars]

theorem materialId_injective : Function.Injective materialId := by
  intro i j h
  have hdata : ('M' :: zfill 3 (natChars i)) = ('M' :: zfill 3 (natChars j)) := by
    have := congrArg String.data h
    simpa [materialId] using this
  have hz : zfill 3 (natChars i) = zfill 3 (natChars j) := by
    injection hdata
  have := congrArg decodeChars hz
  rwa [decodeChars_zfill, decodeChars_zfill] at this

/-! Structural facts about the fields of a generated row. -/

theorem genRow_material_id (i : Nat) (g : RNGState) :
    (genRow i g).1.material_id = materialId i := rfl

theorem genRow_carbon (i : Nat) (g : RNGState) :
    ∃ x, (genRow i g).1.carbon = clamp x (4/5) 12 := ⟨_, rfl⟩

theorem genRow_water (i : Nat) (g : RNGState) :
    ∃ x, (genRow i g).1.water = clamp x 10 30000 := ⟨_, rfl⟩

theorem genRow_energy (i : Nat) (g : RNGState) :
    ∃ x, (genRow i g).1.energy = clamp x 20 140 := ⟨_, rfl⟩

theorem genRow_land (i : Nat) (g : RNGState) :
    ∃ x, (genRow i g).1.land = clamp x (1/5) 15 := ⟨_, rfl⟩

theorem genRow_recyclability (i : Nat) (g : RNGState) :
    ∃ x, (genRow i g).1.recyclability = clamp x 0 100 := ⟨_, rfl⟩

theorem genRow_supplier_conc (i : Nat) (g : RNGState) :
    ∃ x, (genRow i g).1.supplier_conc = clamp x (1/20) (19/20) := ⟨_, rfl⟩

theorem genRow_country_risk (i : Nat) (g : RNGState) :
    ∃ x, (genRow i g).1.country_risk = clamp x 0 100 := ⟨_, rfl⟩

theorem genRow_lead_time (i : Nat) (g : RNGState) :
    ∃ x, (genRow i g).1.lead_time = truncInt (clamp x 7 120) := ⟨_, rfl⟩

theorem genRow_disruption (i : Nat) (g : RNGState) :
    (genRow i g).1.disruption =
      clamp ((45/100) * (genRow i g).1.supplier_conc
        + (35/100) * ((genRow i g).1.country_risk / 100)
        + (20/100) * (((genRow i g).1.lead_time : ℚ) / 120)
        + (genRow i g).1.disr_noise) (1/100) (19/20) := rfl

theorem genRow_micro (i : Nat) (g : RNGState)
    (h : (genRow i g).1.category = "Natural") :
    (genRow i g).1.microplastic_risk = "Low" := by
  simp only [genRow] at h ⊢
  rw [h]
  simp

theorem genRow_recycled (i : Nat) (g : RNGState) :
    (genRow i g).1.recycled_content =
      (if (genRow i g).1.category = "Recycled" then
        clamp (truncInt (genRow i g).1.recycled_draw) 20 100
      else if (genRow i g).1.category = "Bio-based" then
        clamp (truncInt (genRow i g).1.recycled_draw) 0 40
      else clamp (truncInt (genRow i g).1.recycled_draw) 0 15) := by
  simp only [genRow]
  split_ifs <;> rfl

/-! Lemmas about the generation loop. -/

theorem genRowsAux_length (is : List Nat) (g : RNGState) :
    ((genRowsAux is g).1).length = is.length := by
  induction is generalizing g with
  | nil => rfl
  | cons i is ih => simp [genRowsAux, ih]

theorem genRowsAux_ids (is : List Nat) (g : RNGState) :
    ((genRowsAux is g).1).map (fun rd => rd.material_id) = is.map materialId := by
  induction is generalizing g with
  | nil => rfl
  | cons i is ih => simp [genRowsAux, ih, genRow_material_id]

theorem genRowsAux_mem (is : List Nat) (g : RNGState) (rd : RowData)
    (h : rd ∈ (genRowsAux is g).1) : ∃ i g', rd = (genRow i g').1 := by
  induction is generalizing g with
  | nil => simp [genRowsAux] at h
  | cons i is ih =>
    simp only [genRowsAux, List.mem_cons] at h
    rcases h with h | h
    · exact ⟨i, g, h⟩
    · exact ih _ h

theorem genTrace_mem (sf : Int → PRNG) (n seed : Int) (rd : RowData)
    (h : rd ∈ genTrace sf n seed) : ∃ i g', rd = (genRow i g').1 :=
  genRowsAux_mem _ _ rd h

theorem genTrace_length (sf : Int → PRNG) (n seed : Int) :
    (genTrace sf n seed).length = n.toNat := by
  rw [genTrace, genRowsAux_length, loopIndices]
  simp

/-! Concrete tapes and states used by witnesses and counterexamples. -/

/-- A concrete pseudo-random generator unrolling: both tapes constantly zero. -/
def zeroPRNG : PRNG := ⟨fun _ => 0, fun _ => 0⟩

/-- A concrete seeding function: every seed yields the zero tapes. -/
def zeroSF : Int → PRNG := fun _ => zeroPRNG

/-- A concrete pre-call global generator state. -/
def stateA : RNGState := ⟨zeroPRNG, 0, 0⟩

/-- A different concrete pre-call global generator state. -/
def stateB : RNGState := ⟨zeroPRNG, 5, 7⟩

/-- Claim C1: for every row count `n` and all integer seeds `s1 = s2`, two
invocations of `gen_rows` — each starting from an arbitrary (and possibly
different) pre-call global generator state — produce identical contents in all
five returned tables.  `gen_rows` re-seeds both process generators from the
seed (lines 48-49), so its output is a function of `(n, seed)` with no other
hidden input. -/
theorem gen_rows_deterministic (sf : Int → PRNG) (n s1 s2 : Int)
    (g0 g0' : RNGState) (h : s1 = s2) :
    gen_rows sf n s1 g0 = gen_rows sf n s2 g0' := by
  subst h
  rfl

/-- Witness for `gen_rows_deterministic` at `n = 2`, seeds `42 = 42`, and two
different pre-call states. -/
theorem gen_rows_deterministic_witness :
    gen_rows zeroSF 2 42 stateA = gen_rows zeroSF 2 42 stateB :=
  gen_rows_deterministic zeroSF 2 42 42 stateA stateB rfl

/-- Claim C2: for every row count `n ≥ 1` and every seed, `gen_rows` returns
exactly `n` rows in each of the four per-material tables, and the scenarios
table contains exactly 3 rows regardless of `n`. -/
theorem gen_rows_row_counts (sf : Int → PRNG) (n seed : Int) (g0 : RNGState)
    (h : 1 ≤ n) :
    ((gen_rows sf n seed g0).materials_master.length : Int) = n ∧
    ((gen_rows sf n seed g0).environmental_impact.length : Int) = n ∧
    ((gen_rows sf n seed g0).supply_chain_risk.length : Int) = n ∧
    ((gen_rows sf n seed g0).regulatory_confidence.length : Int) = n ∧
    (gen_rows sf n seed g0).scenarios.length = 3 := by
  have hl : (genTrace sf n seed).length = n.toNat := genTrace_length sf n seed
  have hn : (n.toNat : Int) = n := Int.toNat_of_nonneg (by omega)
  refine ⟨?_, ?_, ?_, ?_, rfl⟩ <;>
    simp [gen_rows, hl, hn]

/-- Witness for `gen_rows_row_counts` at `n = 2`. -/
theorem gen_rows_row_counts_witness :
    ((gen_rows zeroSF 2 0 stateA).materials_master.length : Int) = 2 ∧
    ((gen_rows zeroSF 2 0 stateA).environmental_impact.length : Int) = 2 ∧
    ((gen_rows zeroSF 2 0 stateA).supply_chain_risk.length : Int) = 2 ∧
    ((gen_rows zeroSF 2 0 stateA).regulatory_confidence.length : Int) = 2 ∧
    (gen_rows zeroSF 2 0 stateA).scenarios.length = 3 :=
  gen_rows_row_counts zeroSF 2 0 stateA (by decide)

/-- Claim C3: for every row count and seed, the `material_id` values are
pairwise distinct within each of the four per-material tables, and the four
tables carry the same `material_id` values in the same order (hence the same
set).  Stated as: the materials ids are duplicate-free and each other table's
id column equals the materials id column. -/
theorem gen_rows_key_uniqueness (sf : Int → PRNG) (n seed : Int) (g0 : RNGState) :
    ((gen_rows sf n seed g0).materials_master.map fun r => r.material_id).Nodup ∧
    ((gen_rows sf n seed g0).environmental_impact.map fun r => r.material_id)
      = ((gen_rows sf n seed g0).materials_master.map fun r => r.material_id) ∧
    ((gen_rows sf n seed g0).supply_chain_risk.map fun r => r.material_id)
      = ((gen_rows sf n seed g0).materials_master.map fun r => r.material_id) ∧
    ((gen_rows sf n seed g0).regulatory_confidence.map fun r => r.material_id)
      = ((gen_rows sf n seed g0).materials_master.map fun r => r.material_id) := by
  have hmm : ((gen_rows sf n seed g0).materials_master.map fun r => r.material_id)
      = (loopIndices n).map materialId := by
    show ((genTrace sf n seed).map materialRowOf).map (fun r => r.material_id)
        = (loopIndices n).map materialId
    rw [List.map_map]
    exact genRowsAux_ids (loopIndices n) (seedState sf seed)
  refine ⟨?_, ?_, ?_, ?_⟩
  · rw [hmm]
    refine List.Nodup.map materialId_injective ?_
    rw [loopIndices]
    exact (List.nodup_range n.toNat).map (fun a b hab => by omega)
  · rw [hmm]
    show ((genTrace sf n seed).map impactRowOf).map (fun r => r.material_id)
        = (loopIndices n).map materialId
    rw [List.map_map]
    exact genRowsAux_ids (loopIndices n) (seedState sf seed)
  · rw [hmm]
    show ((genTrace sf n seed).map supplyRowOf).map (fun r => r.material_id)
        = (loopIndices n).map materialId
    rw [List.map_map]
    exact genRowsAux_ids (loopIndices n) (seedState sf seed)
  · rw [hmm]
    show ((genTrace sf n seed).map regRowOf).map (fun r => r.material_id)
        = (loopIndices n).map materialId
    rw [List.map_map]
    exact genRowsAux_ids (loopIndices n) (seedState sf seed)

/-- Claim C9: for every row count `n ≤ 0` and every seed, `gen_rows` returns
normally — it is a total function, modelled without any failure case, matching
`range(1, n+1)` being empty in the source — and every per-material entity
table is empty. -/
theorem gen_rows_nonpositive_empty (sf : Int → PRNG) (n seed : Int)
    (g0 : RNGState) (h : n ≤ 0) :
    (gen_rows sf n seed g0).materials_master = [] ∧
    (gen_rows sf n seed g0).environmental_impact = [] ∧
    (gen_rows sf n seed g0).supply_chain_risk = [] ∧
    (gen_rows sf n seed g0).regulatory_confidence = [] := by
  have hl : loopIndices n = [] := by
    rw [loopIndices, Int.toNat_eq_zero.mpr h]
    rfl
  have ht : genTrace sf n seed = [] := by
    rw [genTrace, hl]
    rfl
  exact ⟨by simp [gen_rows, ht], by simp [gen_rows, ht], by simp [gen_rows, ht],
    by simp [gen_rows, ht]⟩

/-- Witness for `gen_rows_nonpositive_empty` at `n = 0`. -/
theorem gen_rows_nonpositive_empty_witness :
    (gen_rows zeroSF 0 7 stateA).materials_master = [] ∧
    (gen_rows zeroSF 0 7 stateA).environmental_impact = [] ∧
    (gen_rows zeroSF 0 7 stateA).supply_chain_risk = [] ∧
    (gen_rows zeroSF 0 7 stateA).regulatory_confidence = [] :=
  gen_rows_nonpositive_empty zeroSF 0 7 stateA (by decide)

/-- Claim C10: for every row count (including `n ≤ 0`) and every seed, the
scenarios table is exactly the fixed 3-row table Baseline (1.00, 1.00, 1.00),
Microplastics_Ban_On (1.25, 1.00, 1.00), Geo_Tension_Spike (1.00, 1.00, 1.15)
— the factors being (microplastics_penalty_factor, pfas_penalty_factor,
country_risk_multiplier) — so `pfas_penalty_factor` is 1.00 in every scenario
and the table depends on neither `n` nor the seed. -/
theorem gen_rows_scenarios_fixed (sf : Int → PRNG) (n seed : Int) (g0 : RNGState) :
    (gen_rows sf n seed g0).scenarios =
      [⟨"Baseline", 1, 1, 1⟩,
       ⟨"Microplastics_Ban_On", 5/4, 1, 1⟩,
       ⟨"Geo_Tension_Spike", 1, 1, 23/20⟩] := rfl

/-! Claim C4: range invariants of the emitted (clamped then rounded) fields. -/

theorem pyRound_clamp_bounds (k : Nat) (a b : Int) (x lo hi : ℚ)
    (hlo : lo = (a : ℚ) / 10 ^ k) (hhi : hi = (b : ℚ) / 10 ^ k) (hab : lo ≤ hi) :
    lo ≤ pyRound (clamp x lo hi) k ∧ pyRound (clamp x lo hi) k ≤ hi := by
  subst hlo
  subst hhi
  obtain ⟨h1, h2⟩ := clamp_mem x _ _ hab
  have hpow : (0 : ℚ) < 10 ^ k := by positivity
  have ha : (a : ℚ) ≤ clamp x ((a : ℚ) / 10 ^ k) ((b : ℚ) / 10 ^ k) * 10 ^ k := by
    rw [div_le_iff₀ hpow] at h1
    linarith
  have hb : clamp x ((a : ℚ) / 10 ^ k) ((b : ℚ) / 10 ^ k) * 10 ^ k ≤ (b : ℚ) := by
    rw [le_div_iff₀ hpow] at h2
    linarith
  exact pyRound_bounds k a b _ ha hb

/-- The documented bounds of the emitted environmental-impact fields
(claim C4). -/
def ImpactInRange (r : ImpactRow) : Prop :=
  4/5 ≤ r.carbon_kgco2e_per_kg ∧ r.carbon_kgco2e_per_kg ≤ 12 ∧
  10 ≤ r.water_l_per_kg ∧ r.water_l_per_kg ≤ 30000 ∧
  20 ≤ r.energy_mj_per_kg ∧ r.energy_mj_per_kg ≤ 140 ∧
  1/5 ≤ r.land_use_m2_per_kg ∧ r.land_use_m2_per_kg ≤ 15 ∧
  0 ≤ r.recyclability_score ∧ r.recyclability_score ≤ 100

/-- The documented bounds of the emitted supply-chain-risk fields (claim C4). -/
def SupplyInRange (r : SupplyRow) : Prop :=
  1/20 ≤ r.supplier_concentration_index ∧ r.supplier_concentration_index ≤ 19/20 ∧
  0 ≤ r.country_risk_score ∧ r.country_risk_score ≤ 100 ∧
  7 ≤ r.lead_time_days ∧ r.lead_time_days ≤ 120 ∧
  1/100 ≤ r.disruption_probability ∧ r.disruption_probability ≤ 19/20

theorem impactRowOf_in_range (i : Nat) (g : RNGState) :
    ImpactInRange (impactRowOf (genRow i g).1) := by
  obtain ⟨xc, hc⟩ := genRow_carbon i g
  obtain ⟨xw, hw⟩ := genRow_water i g
  obtain ⟨xe, he⟩ := genRow_energy i g
  obtain ⟨xl, hl⟩ := genRow_land i g
  obtain ⟨xr, hr⟩ := genRow_recyclability i g
  have bc := pyRound_clamp_bounds 3 800 12000 xc (4/5) 12 (by norm_num) (by norm_num) (by norm_num)
  have bw := pyRound_clamp_bounds 1 100 300000 xw 10 30000 (by norm_num) (by norm_num) (by norm_num)
  have be := pyRound_clamp_bounds 1 200 1400 xe 20 140 (by norm_num) (by norm_num) (by norm_num)
  have bl := pyRound_clamp_bounds 2 20 1500 xl (1/5) 15 (by norm_num) (by norm_num) (by norm_num)
  have br := pyRound_clamp_bounds 1 0 1000 xr 0 100 (by norm_num) (by norm_num) (by norm_num)
  refine ⟨?_, ?_, ?_, ?_, ?_, ?_, ?_, ?_, ?_, ?_⟩
  · simp only [impactRowOf]; rw [hc]; exact bc.1
  · simp only [impactRowOf]; rw [hc]; exact bc.2
  · simp only [impactRowOf]; rw [hw]; exact bw.1
  · simp only [impactRowOf]; rw [hw]; exact bw.2
  · simp only [impactRowOf]; rw [he]; exact be.1
  · simp only [impactRowOf]; rw [he]; exact be.2
  · simp only [impactRowOf]; rw [hl]; exact bl.1
  · simp only [impactRowOf]; rw [hl]; exact bl.2
  · simp only [impactRowOf]; rw [hr]; exact br.1
  · simp only [impactRowOf]; rw [hr]; exact br.2

theorem supplyRowOf_in_range (i : Nat) (g : RNGState) :
    SupplyInRange (supplyRowOf (genRow i g).1) := by
  obtain ⟨xs, hs⟩ := genRow_supplier_conc i g
  obtain ⟨xk, hk⟩ := genRow_country_risk i g
  obtain ⟨xt, ht⟩ := genRow_lead_time i g
  have bs := pyRound_clamp_bounds 3 50 950 xs (1/20) (19/20) (by norm_num) (by norm_num)
    (by norm_num)
  have bk := pyRound_clamp_bounds 1 0 1000 xk 0 100 (by norm_num) (by norm_num) (by norm_num)
  have hclt := clamp_mem xt (7 : ℚ) 120 (by norm_num)
  have bt := truncInt_bounds 7 120 (clamp xt 7 120) (by norm_num)
    (by exact_mod_cast hclt.1) (by exact_mod_cast hclt.2)
  -- disruption: the unrounded value is a clamp to [0.01, 0.95]
  have hd := genRow_disruption i g
  have bd := pyRound_clamp_bounds 3 10 950
    ((45/100) * (genRow i g).1.supplier_conc
      + (35/100) * ((genRow i g).1.country_risk / 100)
      + (20/100) * (((genRow i g).1.lead_time : ℚ) / 120)
      + (genRow i g).1.disr_noise)
    (1/100) (19/20) (by norm_num) (by norm_num) (by norm_num)
  refine ⟨?_, ?_, ?_, ?_, ?_, ?_, ?_, ?_⟩
  · simp only [supplyRowOf]; rw [hs]; exact bs.1
  · simp only [supplyRowOf]; rw [hs]; exact bs.2
  · simp only [supplyRowOf]; rw [hk]; exact bk.1
  · simp only [supplyRowOf]; rw [hk]; exact bk.2
  · simp only [supplyRowOf]; rw [ht]; exact bt.1
  · simp only [supplyRowOf]; rw [ht]; exact bt.2
  · simp only [supplyRowOf]; rw [hd]; exact bd.1
  · simp only [supplyRowOf]; rw [hd]; exact bd.2

/-- Claim C4: in the emitted tables, after the final rounding, every clamped
field lies within its documented bounds:
0.8 ≤ carbon ≤ 12.0, 10.0 ≤ water ≤ 30000.0, 20.0 ≤ energy ≤ 140.0,
0.2 ≤ land ≤ 15.0, 0 ≤ recyclability_score ≤ 100,
0.05 ≤ supplier_concentration_index ≤ 0.95, 0 ≤ country_risk_score ≤ 100,
7 ≤ lead_time_days ≤ 120, 0.01 ≤ disruption_probability ≤ 0.95 —
for every row of every generation. -/
theorem gen_rows_range_invariants (sf : Int → PRNG) (n seed : Int) (g0 : RNGState)
    (j : Nat)
    (hi : j < (gen_rows sf n seed g0).environmental_impact.length)
    (hs : j < (gen_rows sf n seed g0).supply_chain_risk.length) :
    ImpactInRange ((gen_rows sf n seed g0).environmental_impact.get ⟨j, hi⟩) ∧
    SupplyInRange ((gen_rows sf n seed g0).supply_chain_risk.get ⟨j, hs⟩) := by
  have hi' : j < (genTrace sf n seed).length := by
    simpa [gen_rows] using hi
  have e1 : (gen_rows sf n seed g0).environmental_impact.get ⟨j, hi⟩
      = impactRowOf ((genTrace sf n seed).get ⟨j, hi'⟩) := by
    show ((genTrace sf n seed).map impactRowOf).get ⟨j, hi⟩ = _
    simp [List.get_eq_getElem, List.getElem_map]
  have e2 : (gen_rows sf n seed g0).supply_chain_risk.get ⟨j, hs⟩
      = supplyRowOf ((genTrace sf n seed).get ⟨j, hi'⟩) := by
    show ((genTrace sf n seed).map supplyRowOf).get ⟨j, hs⟩ = _
    simp [List.get_eq_getElem, List.getElem_map]
  obtain ⟨i, g', hrow⟩ := genTrace_mem sf n seed _
    (List.get_mem (genTrace sf n seed) j hi')
  rw [e1, e2, hrow]
  exact ⟨impactRowOf_in_range i g', supplyRowOf_in_range i g'⟩

/-- Witness for `gen_rows_range_invariants`: the first generated row at
`n = 1`, `seed = 0`, zero tapes. -/
theorem gen_rows_range_invariants_witness :
    ImpactInRange ((gen_rows zeroSF 1 0 stateA).environmental_impact.get ⟨0, by decide⟩) ∧
    SupplyInRange ((gen_rows zeroSF 1 0 stateA).supply_chain_risk.get ⟨0, by decide⟩) :=
  gen_rows_range_invariants zeroSF 1 0 stateA 0 (by decide) (by decide)

/-! Claim C6: category-conditioned facts. -/

/-- Claim C6: in every generated row (the tables are aligned by position, so
row `j` of `materials_master` and row `j` of `environmental_impact` describe
the same material), category `Natural` forces `microplastic_risk = "Low"`,
and category `Recycled` forces `recycled_content_pct ∈ [20, 100]`. -/
theorem gen_rows_category_conditioned (sf : Int → PRNG) (n seed : Int)
    (g0 : RNGState) (j : Nat)
    (hm : j < (gen_rows sf n seed g0).materials_master.length)
    (hi : j < (gen_rows sf n seed g0).environmental_impact.length) :
    (((gen_rows sf n seed g0).materials_master.get ⟨j, hm⟩).category = "Natural" →
      ((gen_rows sf n seed g0).environmental_impact.get ⟨j, hi⟩).microplastic_risk
        = "Low") ∧
    (((gen_rows sf n seed g0).materials_master.get ⟨j, hm⟩).category = "Recycled" →
      20 ≤ ((gen_rows sf n seed g0).materials_master.get ⟨j, hm⟩).recycled_content_pct ∧
      ((gen_rows sf n seed g0).materials_master.get ⟨j, hm⟩).recycled_content_pct ≤ 100) := by
  have hm' : j < (genTrace sf n seed).length := by
    simpa [gen_rows] using hm
  have e1 : (gen_rows sf n seed g0).materials_master.get ⟨j, hm⟩
      = materialRowOf ((genTrace sf n seed).get ⟨j, hm'⟩) := by
    show ((genTrace sf n seed).map materialRowOf).get ⟨j, hm⟩ = _
    simp [List.get_eq_getElem, List.getElem_map]
  have e2 : (gen_rows sf n seed g0).environmental_impact.get ⟨j, hi⟩
      = impactRowOf ((genTrace sf n seed).get ⟨j, hm'⟩) := by
    show ((genTrace sf n seed).map impactRowOf).get ⟨j, hi⟩ = _
    simp [List.get_eq_getElem, List.getElem_map]
  obtain ⟨i, g', hrow⟩ := genTrace_mem sf n seed _
    (List.get_mem (genTrace sf n seed) j hm')
  rw [e1, e2, hrow]
  constructor
  · intro h
    exact genRow_micro i g' h
  · intro h
    have h' : (genRow i g').1.category = "Recycled" := h
    have hr := genRow_recycled i g'
    have : (genRow i g').1.recycled_content
        = clamp (truncInt (genRow i g').1.recycled_draw) 20 100 := by
      rw [hr, if_pos h']
    show 20 ≤ (genRow i g').1.recycled_content ∧ (genRow i g').1.recycled_content ≤ 100
    rw [this]
    exact clamp_mem _ 20 100 (by decide)

/-- Witness for `gen_rows_category_conditioned`: the first generated row at
`n = 1`, `seed = 0`, zero tapes. -/
theorem gen_rows_category_conditioned_witness :
    (((gen_rows zeroSF 1 0 stateA).materials_master.get ⟨0, by decide⟩).category = "Natural" →
      ((gen_rows zeroSF 1 0 stateA).environmental_impact.get ⟨0, by decide⟩).microplastic_risk
        = "Low") ∧
    (((gen_rows zeroSF 1 0 stateA).materials_master.get ⟨0, by decide⟩).category = "Recycled" →
      20 ≤ ((gen_rows zeroSF 1 0 stateA).materials_master.get ⟨0, by decide⟩).recycled_content_pct ∧
      ((gen_rows zeroSF 1 0 stateA).materials_master.get ⟨0, by decide⟩).recycled_content_pct ≤ 100) :=
  gen_rows_category_conditioned zeroSF 1 0 stateA 0 (by decide) (by decide)

/-! Claim C7: the emitted disruption probability. -/

/-- Claim C7: for every generated row, the emitted `disruption_probability`
equals `round(clamp(0.45*conc + 0.35*(country_risk/100) + 0.20*(lead_time/120)
+ noise, 0.01, 0.95), 3)` where `conc`, `country_risk` and `lead_time` are the
row's already-clamped (pre-rounding) values and `noise` is the row's
Normal(0, 0.05) draw: the noise is added after the weighted sum and the clamp
is applied after the noise.  The first conjunct ties the emitted table to the
per-row trace: the supply table is exactly `supplyRowOf` mapped over it. -/
theorem gen_rows_disruption_formula (sf : Int → PRNG) (n seed : Int)
    (g0 : RNGState) (j : Nat) (h : j < (genTrace sf n seed).length) :
    (gen_rows sf n seed g0).supply_chain_risk = (genTrace sf n seed).map supplyRowOf ∧
    (supplyRowOf ((genTrace sf n seed).get ⟨j, h⟩)).disruption_probability =
      pyRound (clamp
        ((45/100) * ((genTrace sf n seed).get ⟨j, h⟩).supplier_conc
          + (35/100) * (((genTrace sf n seed).get ⟨j, h⟩).country_risk / 100)
          + (20/100) * ((((genTrace sf n seed).get ⟨j, h⟩).lead_time : ℚ) / 120)
          + ((genTrace sf n seed).get ⟨j, h⟩).disr_noise)
        (1/100) (19/20)) 3 := by
  refine ⟨rfl, ?_⟩
  obtain ⟨i, g', hrow⟩ := genTrace_mem sf n seed _
    (List.get_mem (genTrace sf n seed) j h)
  rw [hrow]
  show pyRound (genRow i g').1.disruption 3 = _
  rw [genRow_disruption]

/-- Witness for `gen_rows_disruption_formula`: the first generated row at
`n = 1`, `seed = 0`, zero tapes. -/
theorem gen_rows_disruption_formula_witness :
    (gen_rows zeroSF 1 0 stateA).supply_chain_risk
      = (genTrace zeroSF 1 0).map supplyRowOf ∧
    (supplyRowOf ((genTrace zeroSF 1 0).get ⟨0, by decide⟩)).disruption_probability =
      pyRound (clamp
        ((45/100) * ((genTrace zeroSF 1 0).get ⟨0, by decide⟩).supplier_conc
          + (35/100) * (((genTrace zeroSF 1 0).get ⟨0, by decide⟩).country_risk / 100)
          + (20/100) * ((((genTrace zeroSF 1 0).get ⟨0, by decide⟩).lead_time : ℚ) / 120)
          + ((genTrace zeroSF 1 0).get ⟨0, by decide⟩).disr_noise)
        (1/100) (19/20)) 3 :=
  gen_rows_disruption_formula zeroSF 1 0 stateA 0 (by decide)

/-! Claim C8: the conversion of the recycled-content draw to an integer.
The source (line 68) applies Python `int()`, which truncates toward zero —
not round-to-nearest — before the clamp. -/

/-- Tapes whose first rational draw makes `np.random.normal(70, 20)` return
69.7 and whose first index draw selects the category "Recycled". -/
def cePRNG : PRNG :=
  ⟨fun k => if k = 0 then -3/200 else 0, fun k => if k = 0 then 2 else 0⟩

/-- A seeding function realising `cePRNG` (for every seed). -/
def ceSF : Int → PRNG := fun _ => cePRNG

/-- Counterexample to claim C8 as stated: in the run `gen_rows(1, 0)` over the
tapes `cePRNG`, the single generated row has category "Recycled" and raw
recycled-content draw 69.7, and the emitted `recycled_content_pct` is 69
(truncation before clamp), whereas rounding 69.7 to the nearest integer and
then clamping to [20, 100] — what the claim prescribes — gives 70. -/
theorem recycled_rounding_counterexample :
    ((gen_rows ceSF 1 0 stateA).materials_master.get ⟨0, by decide⟩).category
      = "Recycled" ∧
    ((genTrace ceSF 1 0).get ⟨0, by decide⟩).recycled_draw = 697/10 ∧
    ((gen_rows ceSF 1 0 stateA).materials_master.get ⟨0, by decide⟩).recycled_content_pct
      = 69 ∧
    clamp (rnd (697/10)) 20 100 = 70 := by
  have hcat : (genRow 1 (seedState ceSF 0)).1.category = "Recycled" := by
    simp [genRow, choice_weighted, idxDraw, seedState, ceSF, cePRNG, CATEGORIES]
  have hdraw : (genRow 1 (seedState ceSF 0)).1.recycled_draw = 697/10 := by
    simp [genRow, choice_weighted, pyChoice, idxDraw, normalDraw, seedState, ceSF, cePRNG,
      CATEGORIES]
    norm_num
  have hfloor : ⌊(697/10 : ℚ)⌋ = 69 := by
    rw [Int.floor_eq_iff]
    norm_num
  have hcontent : (genRow 1 (seedState ceSF 0)).1.recycled_content = 69 := by
    rw [genRow_recycled 1 (seedState ceSF 0), if_pos hcat, hdraw]
    rw [truncInt, if_pos (by norm_num : (0:ℚ) ≤ 697/10), hfloor]
    decide
  refine ⟨hcat, hdraw, hcontent, ?_⟩
  rw [rnd, hfloor]
  norm_num [clamp]

/-- Claim C8, amended: for every generated row, `recycled_content_pct` is
obtained by taking the category-specific Normal draw, truncating it toward
zero with Python `int()` (not rounding it to the nearest integer), and then
clamping to the category-specific range (Recycled: [20,100]; Bio-based:
[0,40]; otherwise [0,15]); the conversion to integer happens before the clamp.
The first conjunct ties the emitted table to the per-row trace. -/
theorem recycled_content_trunc_before_clamp (sf : Int → PRNG) (n seed : Int)
    (g0 : RNGState) (j : Nat) (h : j < (genTrace sf n seed).length) :
    (gen_rows sf n seed g0).materials_master = (genTrace sf n seed).map materialRowOf ∧
    (materialRowOf ((genTrace sf n seed).get ⟨j, h⟩)).recycled_content_pct =
      (if ((genTrace sf n seed).get ⟨j, h⟩).category = "Recycled" then
        clamp (truncInt ((genTrace sf n seed).get ⟨j, h⟩).recycled_draw) 20 100
      else if ((genTrace sf n seed).get ⟨j, h⟩).category = "Bio-based" then
        clamp (truncInt ((genTrace sf n seed).get ⟨j, h⟩).recycled_draw) 0 40
      else clamp (truncInt ((genTrace sf n seed).get ⟨j, h⟩).recycled_draw) 0 15) := by
  refine ⟨rfl, ?_⟩
  obtain ⟨i, g', hrow⟩ := genTrace_mem sf n seed _
    (List.get_mem (genTrace sf n seed) j h)
  rw [hrow]
  show (genRow i g').1.recycled_content = _
  exact genRow_recycled i g'

/-- Witness for `recycled_content_trunc_before_clamp`: the first generated
row at `n = 1`, `seed = 0`, zero tapes. -/
theorem recycled_content_trunc_before_clamp_witness :
    (gen_rows zeroSF 1 0 stateA).materials_master
      = (genTrace zeroSF 1 0).map materialRowOf ∧
    (materialRowOf ((genTrace zeroSF 1 0).get ⟨0, by decide⟩)).recycled_content_pct =
      (if ((genTrace zeroSF 1 0).get ⟨0, by decide⟩).category = "Recycled" then
        clamp (truncInt ((genTrace zeroSF 1 0).get ⟨0, by decide⟩).recycled_draw) 20 100
      else if ((genTrace zeroSF 1 0).get ⟨0, by decide⟩).category = "Bio-based" then
        clamp (truncInt ((genTrace zeroSF 1 0).get ⟨0, by decide⟩).recycled_draw) 0 40
      else clamp (truncInt ((genTrace zeroSF 1 0).get ⟨0, by decide⟩).recycled_draw) 0 15) :=
  recycled_content_trunc_before_clamp zeroSF 1 0 stateA 0 (by decide)

/-! Claim C5: join correctness of the merger. -/

/-- Number of occurrences of `v` in a list of keys. -/
def countKey (v : String) : List String → Nat
  | [] => 0
  | s :: l => (if s = v then 1 else 0) + countKey v l

theorem countKey_append (v : String) (l1 l2 : List String) :
    countKey v (l1 ++ l2) = countKey v l1 + countKey v l2 := by
  induction l1 with
  | nil => simp [countKey]
  | cons s l ih =>
    have ih' : countKey v (l.append l2) = countKey v l + countKey v l2 := ih
    simp only [List.cons_append, countKey]
    rw [ih']
    omega

theorem countKey_replicate (m : Nat) (c v : String) :
    countKey v (List.replicate m c) = if c = v then m else 0 := by
  induction m with
  | zero => simp [countKey]
  | succ m ih =>
    simp only [List.replicate_succ, countKey, ih]
    split_ifs <;> omega

theorem countKey_eq_zero (v : String) (l : List String) (h : v ∉ l) :
    countKey v l = 0 := by
  induction l with
  | nil => rfl
  | cons s l ih =>
    simp only [List.mem_cons, not_or] at h
    have hsv : ¬s = v := fun hv => h.1 hv.symm
    simp only [countKey, if_neg hsv, ih h.2]

theorem countKey_nodup (v : String) (l : List String) (h : l.Nodup) :
    countKey v l = if v ∈ l then 1 else 0 := by
  induction l with
  | nil => rfl
  | cons s l ih =>
    rcases List.nodup_cons.mp h with ⟨hs, hl⟩
    rw [countKey, ih hl]
    by_cases hsv : s = v
    · subst hsv
      rw [if_pos rfl, if_neg hs, if_pos (List.mem_cons_self s l)]
    · have hvs : ¬v = s := fun hv => hsv hv.symm
      rw [if_neg hsv]
      by_cases hvl : v ∈ l
      · rw [if_pos hvl, if_pos (List.mem_cons_of_mem s hvl)]
      · rw [if_neg hvl, if_neg (by simp [List.mem_cons, hvs, hvl])]

theorem length_filter_key {β : Type} (ys : List β) (k2 : β → String) (w : String) :
    (ys.filter fun y => k2 y == w).length = countKey w (ys.map k2) := by
  induction ys with
  | nil => rfl
  | cons y ys ih =>
    by_cases h : k2 y = w
    · simp [List.filter_cons, h, countKey, ih]
      omega
    · simp [List.filter_cons, h, countKey, ih]

theorem map_const_replicate {β : Type} (l : List β) (c : String) :
    (l.map fun _ => c) = List.replicate l.length c := by
  induction l with
  | nil => rfl
  | cons y l ih => simp [List.replicate_succ, ih]

theorem countKey_merge {α β : Type} (xs : List α) (ys : List β)
    (k1 : α → String) (k2 : β → String) (v : String) :
    countKey v ((merge xs ys k1 k2).map fun p => k1 p.1)
      = countKey v (xs.map k1) * countKey v (ys.map k2) := by
  induction xs with
  | nil => simp [merge, countKey]
  | cons x xs ih =>
    have hstep : merge (x :: xs) ys k1 k2
        = ((ys.filter fun y => k2 y == k1 x).map fun y => (x, y)) ++ merge xs ys k1 k2 := by
      simp [merge, List.flatMap_cons]
    rw [hstep, List.map_append, countKey_append, ih, List.map_map]
    rw [show ((fun p => k1 p.1) ∘ fun y => ((x, y) : α × β)) = fun _ => k1 x from rfl]
    rw [map_const_replicate, countKey_replicate, List.map_cons]
    show _ = countKey v (k1 x :: xs.map k1) * countKey v (ys.map k2)
    rw [countKey, length_filter_key ys k2 (k1 x)]
    by_cases hx : k1 x = v
    · rw [if_pos hx, if_pos hx, hx]
      ring
    · rw [if_neg hx, if_neg hx]
      ring

theorem countKey_merge_map {α β : Type} (xs : List α) (ys : List β)
    (k1 : α → String) (k2 : β → String) (f : α × β → String)
    (hf : ∀ p, f p = k1 p.1) (v : String) :
    countKey v ((merge xs ys k1 k2).map f)
      = countKey v (xs.map k1) * countKey v (ys.map k2) := by
  have hfe : f = fun p => k1 p.1 := funext hf
  rw [hfe]
  exact countKey_merge xs ys k1 k2 v

/-- Claim C5: for any four input tables in which `material_id` is unique
within each table, the merger's output `df` contains exactly one row for every
`material_id` present in all four inputs and zero rows for any `material_id`
missing from at least one input.  Unmatched rows are silently dropped: the
inner join is a total function, no error case exists. -/
theorem df_join_correctness (materials : List MaterialRow) (impact : List ImpactRow)
    (risk : List SupplyRow) (reg : List RegRow)
    (h1 : (materials.map fun r => r.material_id).Nodup)
    (h2 : (impact.map fun r => r.material_id).Nodup)
    (h3 : (risk.map fun r => r.material_id).Nodup)
    (h4 : (reg.map fun r => r.material_id).Nodup)
    (k : String) :
    countKey k ((df materials impact risk reg).map fun r => r.1.1.1.material_id) =
      (if k ∈ (materials.map fun r => r.material_id)
          ∧ k ∈ (impact.map fun r => r.material_id)
          ∧ k ∈ (risk.map fun r => r.material_id)
          ∧ k ∈ (reg.map fun r => r.material_id)
        then 1 else 0) := by
  simp only [df]
  have houter := countKey_merge_map
    (merge (merge materials impact (fun x => x.material_id) fun x => x.material_id) risk
      (fun p => p.1.material_id) fun x => x.material_id)
    reg (fun p => p.1.1.material_id) (fun x => x.material_id)
    (fun r => r.1.1.1.material_id) (fun _ => rfl) k
  have hmid := countKey_merge_map
    (merge materials impact (fun x => x.material_id) fun x => x.material_id)
    risk (fun p => p.1.material_id) (fun x => x.material_id)
    (fun p => p.1.1.material_id) (fun _ => rfl) k
  have hinner := countKey_merge_map materials impact
    (fun x => x.material_id) (fun x => x.material_id)
    (fun p => p.1.material_id) (fun _ => rfl) k
  rw [houter, hmid, hinner]
  rw [countKey_nodup k _ h1, countKey_nodup k _ h2, countKey_nodup k _ h3,
    countKey_nodup k _ h4]
  by_cases m1 : k ∈ (materials.map fun r => r.material_id) <;>
    by_cases m2 : k ∈ (impact.map fun r => r.material_id) <;>
    by_cases m3 : k ∈ (risk.map fun r => r.material_id) <;>
    by_cases m4 : k ∈ (reg.map fun r => r.material_id) <;>
    simp [m1, m2, m3, m4]

/-- A concrete materials row for the join witness. -/
def wMaterial : MaterialRow := ⟨"M001", "Cotton", "Natural", "Fabric", "USA", "Tier 1", 5, ""⟩

/-- A concrete impact row for the join witness. -/
def wImpact : ImpactRow := ⟨"M001", 3, 100, 60, 8, 45, "Low"⟩

/-- A concrete supply row for the join witness. -/
def wSupply : SupplyRow := ⟨"M001", 1, 50, 50, 50, 30, 1⟩

/-- A concrete regulatory row for the join witness. -/
def wReg : RegRow := ⟨"M001", "Low", "Low", 3, "High", 2, "N"⟩

/-- Witness for `df_join_correctness` on concrete one-row tables. -/
theorem df_join_correctness_witness :
    countKey "M001"
        ((df [wMaterial] [wImpact] [wSupply] [wReg]).map fun r => r.1.1.1.material_id) =
      (if "M001" ∈ ([wMaterial].map fun r => r.material_id)
          ∧ "M001" ∈ ([wImpact].map fun r => r.material_id)
          ∧ "M001" ∈ ([wSupply].map fun r => r.material_id)
          ∧ "M001" ∈ ([wReg].map fun r => r.material_id)
        then 1 else 0) :=
  df_join_correctness [wMaterial] [wImpact] [wSupply] [wReg]
    (by decide) (by decide) (by decide) (by decide) "M001"
